import Mathlib

/-!
Verification of the LoRa network-server core (mxc-foundation/lpwan-server):
the MAC-command answer reconciliation engine, the join-accept downlink
pipeline, and the RPC error-code mapping.  Go machine integers that only
hold small non-negative values (uint8 payload fields, channel indices,
frequencies in Hz) are embedded as `Nat`; Go `int` values that can be
negative (TX power in dBm, RSSI) are embedded as `Int`.  Fallible Go code
(returning `error`) is embedded with `Except String`.
-/

namespace LpwanServer

namespace maccommand

/-- MAC command identifiers (the subset of lorawan CIDs exercised by the
MAC-command engine model: the commands handled by the claims plus the
device-initiated set accepted unsolicited). -/
inductive CID where
  | linkADRReq
  | linkADRAns
  | pingSlotChannelReq
  | pingSlotChannelAns
  | rxParamSetupReq
  | rxParamSetupAns
  | devStatusReq
  | devStatusAns
  | deviceTimeReq
  | linkCheckReq
  | deviceModeInd
  | resetInd
  | rekeyInd
  | rejoinParamSetupAns
deriving DecidableEq, Repr

/-- lorawan.LinkADRReqPayload: ChMask (16 channel bits, embedded as a
Bool list), DataRate, TXPower, Redundancy.NbRep (all uint8). -/
structure LinkADRReqPayload where
  chMask : List Bool
  dataRate : Nat
  txPower : Nat
  nbRep : Nat
deriving DecidableEq, Repr

/-- lorawan.LinkADRAnsPayload: the three acknowledgement bits. -/
structure LinkADRAnsPayload where
  channelMaskACK : Bool
  dataRateACK : Bool
  powerACK : Bool
deriving DecidableEq, Repr

/-- lorawan.PingSlotChannelReqPayload: Frequency (Hz), DR. -/
structure PingSlotChannelReqPayload where
  frequency : Nat
  dr : Nat
deriving DecidableEq, Repr

/-- lorawan.PingSlotChannelAnsPayload: the two acknowledgement bits. -/
structure PingSlotChannelAnsPayload where
  dataRateOK : Bool
  channelFrequencyOK : Bool
deriving DecidableEq, Repr

/-- lorawan.RXParamSetupReqPayload: Frequency plus DLSettings
(RX2DataRate, RX1DROffset). -/
structure RXParamSetupReqPayload where
  frequency : Nat
  rx2DataRate : Nat
  rx1DROffset : Nat
deriving DecidableEq, Repr

/-- lorawan.RXParamSetupAnsPayload: the three acknowledgement bits. -/
structure RXParamSetupAnsPayload where
  channelACK : Bool
  rx2DataRateACK : Bool
  rx1DROffsetACK : Bool
deriving DecidableEq, Repr

/-- lorawan.DevStatusAnsPayload: Battery, Margin. -/
structure DevStatusAnsPayload where
  battery : Nat
  margin : Int
deriving DecidableEq, Repr

/-- MAC-command payload (tagged union over the modelled payload types;
`empty` stands for command payloads outside the model's scope). -/
inductive Payload where
  | linkADRReq (p : LinkADRReqPayload)
  | linkADRAns (p : LinkADRAnsPayload)
  | pingSlotChannelReq (p : PingSlotChannelReqPayload)
  | pingSlotChannelAns (p : PingSlotChannelAnsPayload)
  | rxParamSetupReq (p : RXParamSetupReqPayload)
  | rxParamSetupAns (p : RXParamSetupAnsPayload)
  | devStatusAns (p : DevStatusAnsPayload)
  | empty
deriving DecidableEq, Repr

/-- lorawan.MACCommand: a CID plus its payload. -/
structure MACCommand where
  cid : CID
  payload : Payload
deriving DecidableEq, Repr

/-- storage.MACCommandBlock: ordered sequence of MAC commands sharing one
CID. -/
structure MACCommandBlock where
  cid : CID
  macCommands : List MACCommand
deriving DecidableEq, Repr

/-- storage.DeviceSession, restricted to the attributes the MAC-command
engine reads or writes.  Field defaults are the Go zero values. -/
structure DeviceSession where
  enabledUplinkChannels : List Nat := []
  dr : Nat := 0
  txPowerIndex : Nat := 0
  minSupportedTXPowerIndex : Nat := 0
  maxSupportedTXPowerIndex : Nat := 0
  nbTrans : Nat := 0
  pingSlotFrequency : Nat := 0
  pingSlotDR : Nat := 0
  rx1DROffset : Nat := 0
  rx2DR : Nat := 0
  rx2Frequency : Nat := 0
  battery : Nat := 0
  margin : Int := 0
deriving DecidableEq, Repr

/-- Modelled from the spec: the channel set derived from a pending
`ChMask` — the indices whose mask bit is set (the band-plan resolution in
`GetEnabledUplinkChannelIndices` is not under src/; the test
`TestHandleDownlink` fixes mask `[true,true,true]` over `[0,1]` to yield
`[0,1,2]`, which this definition reproduces). -/
def chMaskChannels (chMask : List Bool) : List Nat :=
  (List.range chMask.length).filter fun i => chMask.getD i false

/-- the pending LinkADRReq payload used by the answer handler: the code
takes the payload of the last MAC command of the pending block. -/
def lastLinkADRReq (b : MACCommandBlock) : Option LinkADRReqPayload :=
  match b.macCommands.getLast? with
  | some mc =>
    match mc.payload with
    | .linkADRReq p => some p
    | _ => none
  | none => none

/-- the LinkADRAns payload carried by the answer block (first command). -/
def firstLinkADRAns (b : MACCommandBlock) : Option LinkADRAnsPayload :=
  match b.macCommands.head? with
  | some mc =>
    match mc.payload with
    | .linkADRAns p => some p
    | _ => none
  | none => none

/-- the pending PingSlotChannelReq payload (first command of the pending
block). -/
def firstPingSlotChannelReq (b : MACCommandBlock) : Option PingSlotChannelReqPayload :=
  match b.macCommands.head? with
  | some mc =>
    match mc.payload with
    | .pingSlotChannelReq p => some p
    | _ => none
  | none => none

/-- the PingSlotChannelAns payload carried by the answer block. -/
def firstPingSlotChannelAns (b : MACCommandBlock) : Option PingSlotChannelAnsPayload :=
  match b.macCommands.head? with
  | some mc =>
    match mc.payload with
    | .pingSlotChannelAns p => some p
    | _ => none
  | none => none

/-- the pending RXParamSetupReq payload. -/
def firstRXParamSetupReq (b : MACCommandBlock) : Option RXParamSetupReqPayload :=
  match b.macCommands.head? with
  | some mc =>
    match mc.payload with
    | .rxParamSetupReq p => some p
    | _ => none
  | none => none

/-- the RXParamSetupAns payload carried by the answer block. -/
def firstRXParamSetupAns (b : MACCommandBlock) : Option RXParamSetupAnsPayload :=
  match b.macCommands.head? with
  | some mc =>
    match mc.payload with
    | .rxParamSetupAns p => some p
    | _ => none
  | none => none

/-- the DevStatusAns payload carried by the answer block. -/
def firstDevStatusAns (b : MACCommandBlock) : Option DevStatusAnsPayload :=
  match b.macCommands.head? with
  | some mc =>
    match mc.payload with
    | .devStatusAns p => some p
    | _ => none
  | none => none

/-- Modelled from the spec: `handleLinkADRAns` of internal/maccommand
(the handler body is not under src/; only its test `TestHandleDownlink`
is).  Spec transitions: all three acks adopt ChMask, DataRate, TXPower
and (for NbRep > 0) NbTrans from the pending request; a Power NACK
either decrements the maximum supported TX-power index or, at the power
floor, raises the minimum to 1.  Where the spec's transition table keys
the Power-NACK branch on the session's current TXPowerIndex, the
in-repository test (rows 2 and 3 of the LinkADRAns table, and the spec's
own scenario S2) keys it on the pending request's TXPower; the test is
followed.  The handler returns the (possibly updated) session together
with the response blocks or the error; the Go code mutates the session
in place and leaves it untouched on every error path. -/
def handleLinkADRAns (ds : DeviceSession) (block : MACCommandBlock)
    (pending : Option MACCommandBlock) :
    DeviceSession × Except String (List MACCommandBlock) :=
  match pending with
  | none => (ds, .error "expected pending mac-command")
  | some pb =>
    match lastLinkADRReq pb, firstLinkADRAns block with
    | some req, some ans =>
      if ans.channelMaskACK && ans.dataRateACK && ans.powerACK then
        ({ ds with
            enabledUplinkChannels := chMaskChannels req.chMask
            dr := req.dataRate
            txPowerIndex := req.txPower
            nbTrans := if 0 < req.nbRep then req.nbRep else ds.nbTrans },
         .ok [])
      else if !ans.powerACK then
        if req.txPower = 0 then
          ({ ds with txPowerIndex := 1, minSupportedTXPowerIndex := 1 }, .ok [])
        else
          ({ ds with maxSupportedTXPowerIndex := req.txPower - 1 }, .ok [])
      else
        (ds, .ok [])
    | _, _ => (ds, .error "invalid mac-command payload")

/-- Modelled from the spec: `handlePingSlotChannelAns` of
internal/maccommand (handler body not under src/).  Both acks set →
adopt PingSlotFrequency and PingSlotDR from the pending request; any
NACK → leave the session unchanged; no pending → error. -/
def handlePingSlotChannelAns (ds : DeviceSession) (block : MACCommandBlock)
    (pending : Option MACCommandBlock) :
    DeviceSession × Except String (List MACCommandBlock) :=
  match pending with
  | none => (ds, .error "expected pending mac-command")
  | some pb =>
    match firstPingSlotChannelReq pb, firstPingSlotChannelAns block with
    | some req, some ans =>
      if ans.dataRateOK && ans.channelFrequencyOK then
        ({ ds with pingSlotFrequency := req.frequency, pingSlotDR := req.dr }, .ok [])
      else
        (ds, .ok [])
    | _, _ => (ds, .error "invalid mac-command payload")

/-- Modelled from the spec: `handleRXParamSetupAns` of
internal/maccommand (handler body not under src/).  All acks set →
adopt RX1DROffset, RX2DR, RX2Frequency from the pending request; no
pending → error. -/
def handleRXParamSetupAns (ds : DeviceSession) (block : MACCommandBlock)
    (pending : Option MACCommandBlock) :
    DeviceSession × Except String (List MACCommandBlock) :=
  match pending with
  | none => (ds, .error "expected pending mac-command")
  | some pb =>
    match firstRXParamSetupReq pb, firstRXParamSetupAns block with
    | some req, some ans =>
      if ans.channelACK && ans.rx2DataRateACK && ans.rx1DROffsetACK then
        ({ ds with
            rx2Frequency := req.frequency
            rx2DR := req.rx2DataRate
            rx1DROffset := req.rx1DROffset }, .ok [])
      else
        (ds, .ok [])
    | _, _ => (ds, .error "invalid mac-command payload")

/-- Modelled from the spec: `handleDevStatusAns` of internal/maccommand
(handler body not under src/): record battery and margin from the
answer; no pending DevStatusReq → error. -/
def handleDevStatusAns (ds : DeviceSession) (block : MACCommandBlock)
    (pending : Option MACCommandBlock) :
    DeviceSession × Except String (List MACCommandBlock) :=
  match pending with
  | none => (ds, .error "expected pending mac-command")
  | some _ =>
    match firstDevStatusAns block with
    | some ans => ({ ds with battery := ans.battery, margin := ans.margin }, .ok [])
    | none => (ds, .error "invalid mac-command payload")

/-- the device-initiated CIDs accepted without a pending request. -/
def deviceInitiatedCIDs : List CID :=
  [.deviceTimeReq, .linkCheckReq, .deviceModeInd, .resetInd, .rekeyInd,
   .rejoinParamSetupAns]

/-- whether a CID names an answer (uplink response to a request). -/
def isAnswerCID : CID → Bool
  | .linkADRAns => true
  | .pingSlotChannelAns => true
  | .rxParamSetupAns => true
  | .devStatusAns => true
  | .rejoinParamSetupAns => true
  | _ => false

/-- Modelled from the spec: `Handle` of internal/maccommand (the
dispatcher body is not under src/; only its test is).  Dispatches on the
answer block's CID to the CID-specific handler; each answer handler
fails with "expected pending mac-command" when no pending block exists;
device-initiated CIDs are accepted unsolicited (their response emission
— DeviceTimeAns, LinkCheckAns — is outside the claims and is modelled
as an empty response list). -/
def Handle (ds : DeviceSession) (block : MACCommandBlock)
    (pending : Option MACCommandBlock) :
    DeviceSession × Except String (List MACCommandBlock) :=
  match block.cid with
  | .linkADRAns => handleLinkADRAns ds block pending
  | .pingSlotChannelAns => handlePingSlotChannelAns ds block pending
  | .rxParamSetupAns => handleRXParamSetupAns ds block pending
  | .devStatusAns => handleDevStatusAns ds block pending
  | _ => (ds, .ok [])

/-- a single-command LinkADRReq pending block, as built by the test. -/
def linkADRReqBlock (p : LinkADRReqPayload) : MACCommandBlock :=
  ⟨.linkADRReq, [⟨.linkADRReq, .linkADRReq p⟩]⟩

/-- a single-command LinkADRAns answer block, as built by the test. -/
def linkADRAnsBlock (p : LinkADRAnsPayload) : MACCommandBlock :=
  ⟨.linkADRAns, [⟨.linkADRAns, .linkADRAns p⟩]⟩

/-- a single-command PingSlotChannelReq pending block. -/
def pingSlotChannelReqBlock (p : PingSlotChannelReqPayload) : MACCommandBlock :=
  ⟨.pingSlotChannelReq, [⟨.pingSlotChannelReq, .pingSlotChannelReq p⟩]⟩

/-- a single-command PingSlotChannelAns answer block. -/
def pingSlotChannelAnsBlock (p : PingSlotChannelAnsPayload) : MACCommandBlock :=
  ⟨.pingSlotChannelAns, [⟨.pingSlotChannelAns, .pingSlotChannelAns p⟩]⟩

/-! Anchor theorems: the model reproduces every row of the in-repository
test `TestHandleDownlink` (docs/content/community/source.md). -/

/-- Test row "pending request and positive ACK updates tx-power, nbtrans
and channels". -/
theorem testHandleDownlink_linkADR_row0 :
    Handle { enabledUplinkChannels := [0, 1] }
      (linkADRAnsBlock ⟨true, true, true⟩)
      (some (linkADRReqBlock ⟨[true, true, true], 5, 3, 2⟩)) =
    ({ enabledUplinkChannels := [0, 1, 2], txPowerIndex := 3, nbTrans := 2, dr := 5 },
     .ok []) := rfl

/-- Test row "pending request and negative tx-power ack decrements the
max allowed tx-power index": note the pre-state TXPowerIndex is 0 and the
new maximum is pendingTXPower - 1 = 2. -/
theorem testHandleDownlink_linkADR_row1 :
    Handle { enabledUplinkChannels := [0, 1] }
      (linkADRAnsBlock ⟨true, true, false⟩)
      (some (linkADRReqBlock ⟨[true, true, true], 5, 3, 2⟩)) =
    ({ enabledUplinkChannels := [0, 1], maxSupportedTXPowerIndex := 2 }, .ok []) := rfl

/-- Test row "pending request and negative tx-power ack on tx-power 0
sets (min) tx-power to 1". -/
theorem testHandleDownlink_linkADR_row2 :
    Handle { enabledUplinkChannels := [0, 1] }
      (linkADRAnsBlock ⟨true, true, false⟩)
      (some (linkADRReqBlock ⟨[true, true, true], 5, 0, 2⟩)) =
    ({ enabledUplinkChannels := [0, 1], txPowerIndex := 1,
       minSupportedTXPowerIndex := 1 }, .ok []) := rfl

/-- Test row "nothing pending and positive ACK returns an error". -/
theorem testHandleDownlink_linkADR_row3 :
    Handle { enabledUplinkChannels := [0, 1] }
      (linkADRAnsBlock ⟨true, true, true⟩) none =
    ({ enabledUplinkChannels := [0, 1] }, .error "expected pending mac-command") := rfl

/-- Test row "pending request and positive ACK updates frequency and
data-rate" (PingSlotChannelAns table). -/
theorem testHandleDownlink_pingSlot_row0 :
    Handle { pingSlotFrequency := 868100000, pingSlotDR := 3 }
      (pingSlotChannelAnsBlock ⟨true, true⟩)
      (some (pingSlotChannelReqBlock ⟨868300000, 4⟩)) =
    ({ pingSlotFrequency := 868300000, pingSlotDR := 4 }, .ok []) := rfl

/-- Test row "pending request and negative ACK does not update". -/
theorem testHandleDownlink_pingSlot_row1 :
    Handle { pingSlotFrequency := 868100000, pingSlotDR := 3 }
      (pingSlotChannelAnsBlock ⟨false, true⟩)
      (some (pingSlotChannelReqBlock ⟨8683000, 4⟩)) =
    ({ pingSlotFrequency := 868100000, pingSlotDR := 3 }, .ok []) := rfl

/-- Test row "no pending request and positive ACK returns an error". -/
theorem testHandleDownlink_pingSlot_row2 :
    Handle { pingSlotFrequency := 868100000, pingSlotDR := 3 }
      (pingSlotChannelAnsBlock ⟨false, true⟩) none =
    ({ pingSlotFrequency := 868100000, pingSlotDR := 3 },
     .error "expected pending mac-command") := rfl

/-- reduction of the dispatcher once the block's CID is known. -/
theorem Handle_cid_linkADRAns (ds : DeviceSession) (block : MACCommandBlock)
    (pending : Option MACCommandBlock) (hcid : block.cid = CID.linkADRAns) :
    Handle ds block pending = handleLinkADRAns ds block pending := by
  unfold Handle
  rw [hcid]

/-- reduction of the dispatcher once the block's CID is known. -/
theorem Handle_cid_pingSlotChannelAns (ds : DeviceSession) (block : MACCommandBlock)
    (pending : Option MACCommandBlock) (hcid : block.cid = CID.pingSlotChannelAns) :
    Handle ds block pending = handlePingSlotChannelAns ds block pending := by
  unfold Handle
  rw [hcid]

/-- Claim C1: for every device session with a pending LinkADRReq block and
an incoming LinkADRAns whose ChannelMaskACK, DataRateACK and PowerACK are
all true, Handle returns no error and zero response blocks, and the
post-state session has EnabledUplinkChannels equal to the channel set
derived from the pending ChMask, DR equal to the pending DataRate,
TXPowerIndex equal to the pending TXPower, and NbTrans equal to the
pending NbRep when NbRep > 0. -/
theorem linkADRAns_allAcks_updates_session
    (ds : DeviceSession) (pb block : MACCommandBlock)
    (req : LinkADRReqPayload) (ans : LinkADRAnsPayload)
    (hcid : block.cid = CID.linkADRAns)
    (hreq : lastLinkADRReq pb = some req)
    (hans : firstLinkADRAns block = some ans)
    (hc : ans.channelMaskACK = true) (hd : ans.dataRateACK = true)
    (hp : ans.powerACK = true) :
    ∃ ds', Handle ds block (some pb) = (ds', .ok []) ∧
      ds'.enabledUplinkChannels = chMaskChannels req.chMask ∧
      ds'.dr = req.dataRate ∧
      ds'.txPowerIndex = req.txPower ∧
      (0 < req.nbRep → ds'.nbTrans = req.nbRep) := by
  refine ⟨{ ds with
      enabledUplinkChannels := chMaskChannels req.chMask
      dr := req.dataRate
      txPowerIndex := req.txPower
      nbTrans := if 0 < req.nbRep then req.nbRep else ds.nbTrans },
    ?_, rfl, rfl, rfl, fun h => by simp [h]⟩
  rw [Handle_cid_linkADRAns ds block (some pb) hcid]
  unfold handleLinkADRAns
  dsimp only
  rw [hreq, hans]
  simp [hc, hd, hp]

/-- Witness for C1: the spec's scenario S1 / test row 0. -/
theorem linkADRAns_allAcks_updates_session_witness :
    ∃ ds', Handle { enabledUplinkChannels := [0, 1] }
        (linkADRAnsBlock ⟨true, true, true⟩)
        (some (linkADRReqBlock ⟨[true, true, true], 5, 3, 2⟩)) = (ds', .ok []) ∧
      ds'.enabledUplinkChannels = chMaskChannels [true, true, true] ∧
      ds'.dr = 5 ∧ ds'.txPowerIndex = 3 ∧ (0 < 2 → ds'.nbTrans = 2) :=
  linkADRAns_allAcks_updates_session { enabledUplinkChannels := [0, 1] }
    (linkADRReqBlock ⟨[true, true, true], 5, 3, 2⟩)
    (linkADRAnsBlock ⟨true, true, true⟩)
    ⟨[true, true, true], 5, 3, 2⟩ ⟨true, true, true⟩
    rfl rfl rfl rfl rfl rfl

/-- Claim C2: for every MAC-command answer whose CID is not in the
device-initiated set and for which no pending block exists, Handle
returns the error "expected pending mac-command" and hands back the
device session with every field unchanged (the Go code mutates the
session through a pointer and does not touch it on this path). -/
theorem answer_without_pending_errors
    (ds : DeviceSession) (block : MACCommandBlock)
    (h1 : isAnswerCID block.cid = true)
    (h2 : block.cid ∉ deviceInitiatedCIDs) :
    Handle ds block none = (ds, .error "expected pending mac-command") := by
  obtain ⟨cid, cmds⟩ := block
  cases cid <;>
    simp_all [Handle, isAnswerCID, deviceInitiatedCIDs, handleLinkADRAns,
      handlePingSlotChannelAns, handleRXParamSetupAns, handleDevStatusAns]

/-- Witness for C2: the spec's scenario S4 / test row 3 (an unsolicited
LinkADRAns). -/
theorem answer_without_pending_errors_witness :
    isAnswerCID (linkADRAnsBlock ⟨true, true, true⟩).cid = true ∧
    (linkADRAnsBlock ⟨true, true, true⟩).cid ∉ deviceInitiatedCIDs ∧
    Handle { enabledUplinkChannels := [0, 1] }
        (linkADRAnsBlock ⟨true, true, true⟩) none =
      ({ enabledUplinkChannels := [0, 1] }, .error "expected pending mac-command") :=
  ⟨rfl, by decide,
   answer_without_pending_errors { enabledUplinkChannels := [0, 1] }
     (linkADRAnsBlock ⟨true, true, true⟩) rfl (by decide)⟩

/-- concrete pre-state for the C3 counterexample: session TXPowerIndex 1. -/
def c3ds : DeviceSession := { enabledUplinkChannels := [0, 1], txPowerIndex := 1 }

/-- concrete pending LinkADRReq (TXPower 3) for the C3 counterexample. -/
def c3pending : MACCommandBlock := linkADRReqBlock ⟨[true, true, true], 5, 3, 2⟩

/-- concrete LinkADRAns with a Power NACK for the C3 counterexample. -/
def c3block : MACCommandBlock := linkADRAnsBlock ⟨true, true, false⟩

/-- Claim C3 counterexample: with pre-state TXPowerIndex = 1 (> 0) and a
pending LinkADRReq whose TXPower is 3, a Power-NACK LinkADRAns leaves
MaxSupportedTXPowerIndex = 2 = pendingTXPower - 1, not
TXPowerIndex - 1 = 0: the handler keys on the pending request's TXPower,
not on the session's TXPowerIndex. -/
theorem powerNack_session_txPower_counterexample :
    0 < c3ds.txPowerIndex ∧
    (Handle c3ds c3block (some c3pending)).2 = .ok [] ∧
    c3ds.txPowerIndex - 1 = 0 ∧
    (Handle c3ds c3block (some c3pending)).1.maxSupportedTXPowerIndex = 2 ∧
    (Handle c3ds c3block (some c3pending)).1.maxSupportedTXPowerIndex ≠
      c3ds.txPowerIndex - 1 :=
  ⟨by decide, rfl, rfl, rfl, by decide⟩

/-- Claim C3 amended: after Handle processes a LinkADRAns (with a pending
LinkADRReq whose TXPower = m > 0) whose PowerACK is false, the post-state
has MaxSupportedTXPowerIndex = m - 1 and TXPowerIndex unchanged. -/
theorem powerNack_decrements_max_from_pending
    (ds : DeviceSession) (pb block : MACCommandBlock)
    (req : LinkADRReqPayload) (ans : LinkADRAnsPayload)
    (hcid : block.cid = CID.linkADRAns)
    (hreq : lastLinkADRReq pb = some req)
    (hans : firstLinkADRAns block = some ans)
    (hp : ans.powerACK = false) (hm : req.txPower ≠ 0) :
    Handle ds block (some pb) =
      ({ ds with maxSupportedTXPowerIndex := req.txPower - 1 }, .ok []) ∧
    ({ ds with maxSupportedTXPowerIndex := req.txPower - 1 } :
      DeviceSession).txPowerIndex = ds.txPowerIndex := by
  refine ⟨?_, rfl⟩
  rw [Handle_cid_linkADRAns ds block (some pb) hcid]
  unfold handleLinkADRAns
  dsimp only
  rw [hreq, hans]
  simp [hp, hm]

/-- Witness for C3 amended: the spec's scenario S2 / test row 1. -/
theorem powerNack_decrements_max_from_pending_witness :
    Handle { enabledUplinkChannels := [0, 1] }
        (linkADRAnsBlock ⟨true, true, false⟩)
        (some (linkADRReqBlock ⟨[true, true, true], 5, 3, 2⟩)) =
      ({ enabledUplinkChannels := [0, 1], maxSupportedTXPowerIndex := 2 }, .ok []) ∧
    ({ enabledUplinkChannels := [0, 1], maxSupportedTXPowerIndex := 2 } :
      DeviceSession).txPowerIndex =
      ({ enabledUplinkChannels := [0, 1] } : DeviceSession).txPowerIndex :=
  powerNack_decrements_max_from_pending { enabledUplinkChannels := [0, 1] }
    (linkADRReqBlock ⟨[true, true, true], 5, 3, 2⟩)
    (linkADRAnsBlock ⟨true, true, false⟩)
    ⟨[true, true, true], 5, 3, 2⟩ ⟨true, true, false⟩
    rfl rfl rfl rfl (by decide)

/-- concrete pre-state for the C4 counterexample: session TXPowerIndex 0. -/
def c4ds : DeviceSession := { enabledUplinkChannels := [0, 1] }

/-- concrete pending LinkADRReq (TXPower 3) for the C4 counterexample. -/
def c4pending : MACCommandBlock := linkADRReqBlock ⟨[true, true, true], 5, 3, 2⟩

/-- concrete LinkADRAns with a Power NACK for the C4 counterexample. -/
def c4block : MACCommandBlock := linkADRAnsBlock ⟨true, true, false⟩

/-- Claim C4 counterexample: with pre-state TXPowerIndex = 0 but a pending
LinkADRReq whose TXPower is 3, a Power-NACK LinkADRAns leaves
TXPowerIndex = 0 and MinSupportedTXPowerIndex = 0 (it decrements the
maximum instead): the floor rule fires on pendingTXPower = 0, not on the
session's TXPowerIndex = 0.  This is exactly test row 1 of
TestHandleDownlink. -/
theorem powerNack_at_zero_counterexample :
    c4ds.txPowerIndex = 0 ∧
    (Handle c4ds c4block (some c4pending)).2 = .ok [] ∧
    (Handle c4ds c4block (some c4pending)).1.txPowerIndex ≠ 1 ∧
    (Handle c4ds c4block (some c4pending)).1.minSupportedTXPowerIndex ≠ 1 :=
  ⟨rfl, rfl, by decide, by decide⟩

/-- Claim C4 amended: after Handle processes a LinkADRAns (with a pending
LinkADRReq whose TXPower = 0) whose PowerACK is false, the post-state has
TXPowerIndex = 1 and MinSupportedTXPowerIndex = 1. -/
theorem powerNack_pendingZero_sets_min
    (ds : DeviceSession) (pb block : MACCommandBlock)
    (req : LinkADRReqPayload) (ans : LinkADRAnsPayload)
    (hcid : block.cid = CID.linkADRAns)
    (hreq : lastLinkADRReq pb = some req)
    (hans : firstLinkADRAns block = some ans)
    (hp : ans.powerACK = false) (hm : req.txPower = 0) :
    Handle ds block (some pb) =
      ({ ds with txPowerIndex := 1, minSupportedTXPowerIndex := 1 }, .ok []) := by
  rw [Handle_cid_linkADRAns ds block (some pb) hcid]
  unfold handleLinkADRAns
  dsimp only
  rw [hreq, hans]
  simp [hp, hm]

/-- Witness for C4 amended: the spec's scenario S3 / test row 2. -/
theorem powerNack_pendingZero_sets_min_witness :
    Handle { enabledUplinkChannels := [0, 1] }
        (linkADRAnsBlock ⟨true, true, false⟩)
        (some (linkADRReqBlock ⟨[true, true, true], 5, 0, 2⟩)) =
      ({ enabledUplinkChannels := [0, 1], txPowerIndex := 1,
         minSupportedTXPowerIndex := 1 }, .ok []) :=
  powerNack_pendingZero_sets_min { enabledUplinkChannels := [0, 1] }
    (linkADRReqBlock ⟨[true, true, true], 5, 0, 2⟩)
    (linkADRAnsBlock ⟨true, true, false⟩)
    ⟨[true, true, true], 5, 0, 2⟩ ⟨true, true, false⟩
    rfl rfl rfl rfl rfl

/-- Claim C5: for every device session with a pending PingSlotChannelReq,
Handle on a PingSlotChannelAns with both DataRateOK and ChannelFrequencyOK
true sets PingSlotFrequency and PingSlotDR to the pending request's
Frequency and DR; if either ack bit is false, the session is left
entirely unchanged (and no error is returned). -/
theorem pingSlotChannelAns_updates_or_leaves
    (ds : DeviceSession) (pb block : MACCommandBlock)
    (req : PingSlotChannelReqPayload) (ans : PingSlotChannelAnsPayload)
    (hcid : block.cid = CID.pingSlotChannelAns)
    (hreq : firstPingSlotChannelReq pb = some req)
    (hans : firstPingSlotChannelAns block = some ans) :
    (ans.dataRateOK = true → ans.channelFrequencyOK = true →
      Handle ds block (some pb) =
        ({ ds with pingSlotFrequency := req.frequency, pingSlotDR := req.dr },
         .ok [])) ∧
    ((ans.dataRateOK = false ∨ ans.channelFrequencyOK = false) →
      Handle ds block (some pb) = (ds, .ok [])) := by
  rw [Handle_cid_pingSlotChannelAns ds block (some pb) hcid]
  unfold handlePingSlotChannelAns
  dsimp only
  rw [hreq, hans]
  constructor
  · intro h1 h2
    simp [h1, h2]
  · rintro (h | h) <;> simp [h]

/-- Witness for C5: the spec's scenario S5 (positive) and the negative
test row of the PingSlotChannelAns table. -/
theorem pingSlotChannelAns_updates_or_leaves_witness :
    Handle { pingSlotFrequency := 868100000, pingSlotDR := 3 }
        (pingSlotChannelAnsBlock ⟨true, true⟩)
        (some (pingSlotChannelReqBlock ⟨868300000, 4⟩)) =
      ({ pingSlotFrequency := 868300000, pingSlotDR := 4 }, .ok []) ∧
    Handle { pingSlotFrequency := 868100000, pingSlotDR := 3 }
        (pingSlotChannelAnsBlock ⟨false, true⟩)
        (some (pingSlotChannelReqBlock ⟨8683000, 4⟩)) =
      ({ pingSlotFrequency := 868100000, pingSlotDR := 3 }, .ok []) :=
  ⟨(pingSlotChannelAns_updates_or_leaves
      { pingSlotFrequency := 868100000, pingSlotDR := 3 }
      (pingSlotChannelReqBlock ⟨868300000, 4⟩)
      (pingSlotChannelAnsBlock ⟨true, true⟩)
      ⟨868300000, 4⟩ ⟨true, true⟩ rfl rfl rfl).1 rfl rfl,
   (pingSlotChannelAns_updates_or_leaves
      { pingSlotFrequency := 868100000, pingSlotDR := 3 }
      (pingSlotChannelReqBlock ⟨8683000, 4⟩)
      (pingSlotChannelAnsBlock ⟨false, true⟩)
      ⟨8683000, 4⟩ ⟨false, true⟩ rfl rfl rfl).2 (Or.inl rfl)⟩

end maccommand

namespace join

/-- gw.UplinkRXInfo, restricted to the fields read by the join handler
(GatewayId bytes, Rssi, LoraSnr, Board, Antenna, Context).  LoraSnr is a
float64 in Go but is only ever copied, never computed on, so it is
embedded as an Int. -/
structure UplinkRXInfo where
  gatewayID : List Nat := []
  rssi : Int := 0
  loraSnr : Int := 0
  board : Nat := 0
  antenna : Nat := 0
  context : List Nat := []
deriving DecidableEq, Repr

/-- gw.UplinkTXInfo, restricted to the Frequency field read by the join
handler. -/
structure UplinkTXInfo where
  frequency : Nat := 0
deriving DecidableEq, Repr

/-- models.RXPacket as read by the join handler: uplink data-rate index,
canonical TX info and the per-gateway RX-info set. -/
structure RXPacket where
  dr : Nat := 0
  txInfo : UplinkTXInfo := {}
  rxInfoSet : List UplinkRXInfo := []
deriving DecidableEq, Repr

/-- storage.DeviceGatewayRXInfo. -/
structure DeviceGatewayRXInfo where
  gatewayID : List Nat := []
  rssi : Int := 0
  loRaSNR : Int := 0
  board : Nat := 0
  antenna : Nat := 0
  context : List Nat := []
deriving DecidableEq, Repr

/-- gw.DownlinkTiming plus its tagged timing parameter (delay durations
and GPS timestamps are abstracted to Nat). -/
inductive DownlinkTiming where
  | immediately
  | delay (d : Nat)
  | gpsEpoch (t : Nat)
deriving DecidableEq, Repr

/-- gw.DownlinkTXInfo, restricted to the fields the join handler writes.
`dataRate` summarizes the modulation settings written by
helpers.SetDownlinkTXInfoDataRate as the data-rate index it was given. -/
structure DownlinkTXInfo where
  gatewayId : List Nat := []
  board : Nat := 0
  antenna : Nat := 0
  context : List Nat := []
  frequency : Nat := 0
  power : Int := 0
  dataRate : Nat := 0
  timing : DownlinkTiming := .immediately
deriving DecidableEq, Repr

/-- gw.DownlinkFrame: PHY payload bytes, TX info, 16-bit token (widened
to uint32 in Go) and the 16-byte downlink id. -/
structure DownlinkFrame where
  phyPayload : List Nat := []
  txInfo : DownlinkTXInfo := {}
  token : Nat := 0
  downlinkId : List Nat := []
deriving DecidableEq, Repr

/-- band.Band().GetDefaults(): the band-plan defaults the join handler
reads. -/
structure BandDefaults where
  rx2Frequency : Nat
  rx2DataRate : Nat
  joinAcceptDelay1 : Nat
  joinAcceptDelay2 : Nat
deriving DecidableEq, Repr

/-- the band-plan operations the join handler calls (the band package is
an external collaborator: a pure lookup table, §1 of the spec).
`getDataRate` stands for the lookup performed by
helpers.SetDownlinkTXInfoDataRate, returning the modulation summary it
stores. -/
structure Band where
  getRX1DataRateIndex : Nat → Nat → Except String Nat
  getDataRate : Nat → Except String Nat
  getRX1FrequencyForUplinkFrequency : Nat → Except String Nat
  getDownlinkTXPower : Nat → Int
  defaults : BandDefaults

/-- the join handler's environment: the package-level configuration set
by Setup (rxWindow, downlinkTXPower), the band plan, and the outcomes of
the effectful collaborator calls made during one Handle run (the crypto
random read as a big-endian uint16, the context id, PHYPayload
marshalling, the gateway send and the storage save). -/
structure Config where
  rxWindow : Int
  downlinkTXPower : Int
  band : Band
  randUint16 : Except String Nat
  ctxID : Option (List Nat)
  marshalPHY : Except String (List Nat)
  sendOK : Except String Unit
  saveOK : Except String Unit

/-- joinContext: the pipeline state threaded through the task list.
`sentFrame` and `savedFrames` record the externally visible effects of
sendJoinAcceptResponse and saveRemainingFrames. -/
structure JoinContext where
  rxPacket : RXPacket := {}
  deviceGatewayRXInfo : List DeviceGatewayRXInfo := []
  downlinkFrames : List DownlinkFrame := []
  sentFrame : Option DownlinkFrame := none
  savedFrames : List DownlinkFrame := []
deriving DecidableEq, Repr

/-- the per-entry conversion done by setDeviceGatewayRXInfo's loop. -/
def mkDeviceGatewayRXInfo (r : UplinkRXInfo) : DeviceGatewayRXInfo :=
  { gatewayID := r.gatewayID, rssi := r.rssi, loRaSNR := r.loraSnr,
    board := r.board, antenna := r.antenna, context := r.context }

/-- setDeviceGatewayRXInfo: copy the RX-info set into the context and
fail when the result is empty. -/
def setDeviceGatewayRXInfo (ctx : JoinContext) : Except String JoinContext :=
  if (ctx.deviceGatewayRXInfo ++ ctx.rxPacket.rxInfoSet.map mkDeviceGatewayRXInfo).length = 0 then
    .error "DeviceGatewayRXInfo is empty!"
  else
    .ok { ctx with deviceGatewayRXInfo :=
      ctx.deviceGatewayRXInfo ++ ctx.rxPacket.rxInfoSet.map mkDeviceGatewayRXInfo }

/-- setTXInfoForRX1: build the RX1 candidate from the first gateway of
DeviceGatewayRXInfo (the Go index expression `[0]` panics on an empty
slice, embedded as the "index out of range" error), the band's RX1
data-rate and frequency mappings, the configured or band-default TX
power, and DELAY timing with JoinAcceptDelay1. -/
def setTXInfoForRX1 (cfg : Config) (ctx : JoinContext) : Except String JoinContext :=
  match ctx.deviceGatewayRXInfo.head? with
  | none => .error "index out of range"
  | some rxInfo =>
    match cfg.band.getRX1DataRateIndex ctx.rxPacket.dr 0 with
    | .error e => .error ("get rx1 data-rate index error: " ++ e)
    | .ok rx1DR =>
      match cfg.band.getDataRate rx1DR with
      | .error e => .error ("set downlink tx-info data-rate error: " ++ e)
      | .ok drInfo =>
        match cfg.band.getRX1FrequencyForUplinkFrequency ctx.rxPacket.txInfo.frequency with
        | .error e => .error ("get rx1 frequency error: " ++ e)
        | .ok freq =>
          .ok { ctx with downlinkFrames := ctx.downlinkFrames ++
            [{ txInfo :=
                { gatewayId := rxInfo.gatewayID
                  board := rxInfo.board
                  antenna := rxInfo.antenna
                  context := rxInfo.context
                  frequency := freq
                  power := (if cfg.downlinkTXPower ≠ -1 then cfg.downlinkTXPower
                            else cfg.band.getDownlinkTXPower freq)
                  dataRate := drInfo
                  timing := .delay cfg.band.defaults.joinAcceptDelay1 } }] }

/-- setTXInfoForRX2: build the RX2 candidate on the band-default RX2
frequency and data-rate, with DELAY timing and JoinAcceptDelay2. -/
def setTXInfoForRX2 (cfg : Config) (ctx : JoinContext) : Except String JoinContext :=
  match ctx.deviceGatewayRXInfo.head? with
  | none => .error "index out of range"
  | some rxInfo =>
    match cfg.band.getDataRate cfg.band.defaults.rx2DataRate with
    | .error e => .error ("set downlink tx-info data-rate error: " ++ e)
    | .ok drInfo =>
      .ok { ctx with downlinkFrames := ctx.downlinkFrames ++
        [{ txInfo :=
            { gatewayId := rxInfo.gatewayID
              board := rxInfo.board
              antenna := rxInfo.antenna
              context := rxInfo.context
              frequency := cfg.band.defaults.rx2Frequency
              power := (if cfg.downlinkTXPower ≠ -1 then cfg.downlinkTXPower
                        else cfg.band.getDownlinkTXPower cfg.band.defaults.rx2Frequency)
              dataRate := drInfo
              timing := .delay cfg.band.defaults.joinAcceptDelay2 } }] }

/-- setTXInfo: RX1 candidate when rxWindow is 0 or 1, then RX2 candidate
when rxWindow is 0 or 2. -/
def setTXInfo (cfg : Config) (ctx : JoinContext) : Except String JoinContext :=
  (if cfg.rxWindow = 0 ∨ cfg.rxWindow = 1 then setTXInfoForRX1 cfg ctx else .ok ctx).bind
    fun ctx1 =>
      if cfg.rxWindow = 0 ∨ cfg.rxWindow = 2 then setTXInfoForRX2 cfg ctx1 else .ok ctx1

/-- the zero uuid used when the uplink context carries no id. -/
def zeroUUID : List Nat := List.replicate 16 0

/-- the downlink id taken from the uplink context: the context value when
present, the zero uuid otherwise. -/
def downlinkID (cfg : Config) : List Nat :=
  match cfg.ctxID with
  | some id => id
  | none => zeroUUID

/-- setToken: draw two random bytes ONCE (big-endian uint16), then assign
that one token and the context downlink-id to every candidate frame. -/
def setToken (cfg : Config) (ctx : JoinContext) : Except String JoinContext :=
  match cfg.randUint16 with
  | .error e => .error ("read random error: " ++ e)
  | .ok tok =>
    .ok { ctx with downlinkFrames := ctx.downlinkFrames.map fun f =>
      { f with token := tok, downlinkId := downlinkID cfg } }

/-- setDownlinkFrame: marshal the PHY payload and store the bytes into
every candidate frame. -/
def setDownlinkFrame (cfg : Config) (ctx : JoinContext) : Except String JoinContext :=
  match cfg.marshalPHY with
  | .error e => .error ("marshal phypayload error: " ++ e)
  | .ok phyB =>
    .ok { ctx with downlinkFrames := ctx.downlinkFrames.map fun f =>
      { f with phyPayload := phyB } }

/-- sendJoinAcceptResponse: send the first candidate to the gateway
backend (a no-op when there are no candidates); frame-log failures are
only logged and are not modelled. -/
def sendJoinAcceptResponse (cfg : Config) (ctx : JoinContext) : Except String JoinContext :=
  match ctx.downlinkFrames.head? with
  | none => .ok ctx
  | some f =>
    match cfg.sendOK with
    | .error e => .error ("send downlink frame error: " ++ e)
    | .ok _ => .ok { ctx with sentFrame := some f }

/-- saveRemainingFrames: persist the candidates after the first, when any
exist. -/
def saveRemainingFrames (cfg : Config) (ctx : JoinContext) : Except String JoinContext :=
  if ctx.downlinkFrames.length < 2 then .ok ctx
  else
    match cfg.saveOK with
    | .error e => .error ("save downlink-frames error: " ++ e)
    | .ok _ => .ok { ctx with savedFrames := ctx.downlinkFrames.drop 1 }

/-- Handle: run the six pipeline tasks in order, stopping at the first
error (the Go loop over `tasks`). -/
def Handle (cfg : Config) (rxPacket : RXPacket) : Except String JoinContext :=
  (setDeviceGatewayRXInfo { rxPacket := rxPacket }).bind fun c1 =>
  (setTXInfo cfg c1).bind fun c2 =>
  (setToken cfg c2).bind fun c3 =>
  (setDownlinkFrame cfg c3).bind fun c4 =>
  (sendJoinAcceptResponse cfg c4).bind fun c5 =>
  saveRemainingFrames cfg c5

/-- a successful setTXInfoForRX1 appends exactly one frame, carrying
DELAY timing with JoinAcceptDelay1 and the configured-or-band-default TX
power. -/
theorem setTXInfoForRX1_ok (cfg : Config) (ctx c : JoinContext)
    (h : setTXInfoForRX1 cfg ctx = .ok c) :
    ∃ f : DownlinkFrame,
      c.downlinkFrames = ctx.downlinkFrames ++ [f] ∧
      f.txInfo.timing = .delay cfg.band.defaults.joinAcceptDelay1 ∧
      f.txInfo.power = (if cfg.downlinkTXPower ≠ -1 then cfg.downlinkTXPower
                        else cfg.band.getDownlinkTXPower f.txInfo.frequency) := by
  unfold setTXInfoForRX1 at h
  split at h
  · exact absurd h (by simp)
  split at h
  · exact absurd h (by simp)
  split at h
  · exact absurd h (by simp)
  split at h
  · exact absurd h (by simp)
  injection h with h
  subst h
  refine ⟨_, rfl, rfl, ?_⟩
  rfl

/-- a successful setTXInfoForRX2 appends exactly one frame, on the
band-default RX2 frequency, carrying DELAY timing with JoinAcceptDelay2
and the configured-or-band-default TX power. -/
theorem setTXInfoForRX2_ok (cfg : Config) (ctx c : JoinContext)
    (h : setTXInfoForRX2 cfg ctx = .ok c) :
    ∃ f : DownlinkFrame,
      c.downlinkFrames = ctx.downlinkFrames ++ [f] ∧
      f.txInfo.timing = .delay cfg.band.defaults.joinAcceptDelay2 ∧
      f.txInfo.frequency = cfg.band.defaults.rx2Frequency ∧
      f.txInfo.power = (if cfg.downlinkTXPower ≠ -1 then cfg.downlinkTXPower
                        else cfg.band.getDownlinkTXPower f.txInfo.frequency) := by
  unfold setTXInfoForRX2 at h
  split at h
  · exact absurd h (by simp)
  split at h
  · exact absurd h (by simp)
  injection h with h
  subst h
  refine ⟨_, rfl, rfl, rfl, ?_⟩
  rfl

/-- full case analysis of a successful setTXInfo: the candidate lists it
can append, by receive-window configuration. -/
theorem setTXInfo_ok_structure (cfg : Config) (ctx c : JoinContext)
    (h : setTXInfo cfg ctx = .ok c) :
    ∃ fs1 fs2 : List DownlinkFrame,
      c.downlinkFrames = ctx.downlinkFrames ++ (fs1 ++ fs2) ∧
      ((cfg.rxWindow = 0 ∨ cfg.rxWindow = 1) →
        ∃ f1, fs1 = [f1] ∧
          f1.txInfo.timing = .delay cfg.band.defaults.joinAcceptDelay1 ∧
          f1.txInfo.power = (if cfg.downlinkTXPower ≠ -1 then cfg.downlinkTXPower
                             else cfg.band.getDownlinkTXPower f1.txInfo.frequency)) ∧
      (¬(cfg.rxWindow = 0 ∨ cfg.rxWindow = 1) → fs1 = []) ∧
      ((cfg.rxWindow = 0 ∨ cfg.rxWindow = 2) →
        ∃ f2, fs2 = [f2] ∧
          f2.txInfo.timing = .delay cfg.band.defaults.joinAcceptDelay2 ∧
          f2.txInfo.frequency = cfg.band.defaults.rx2Frequency ∧
          f2.txInfo.power = (if cfg.downlinkTXPower ≠ -1 then cfg.downlinkTXPower
                             else cfg.band.getDownlinkTXPower f2.txInfo.frequency)) ∧
      (¬(cfg.rxWindow = 0 ∨ cfg.rxWindow = 2) → fs2 = []) := by
  unfold setTXInfo at h
  by_cases h1 : cfg.rxWindow = 0 ∨ cfg.rxWindow = 1
  · rw [if_pos h1] at h
    cases hr1 : setTXInfoForRX1 cfg ctx with
    | error e => rw [hr1] at h; exact absurd h (by simp [Except.bind])
    | ok c1 =>
      rw [hr1] at h
      simp only [Except.bind] at h
      obtain ⟨f1, hc1, ht1, hp1⟩ := setTXInfoForRX1_ok cfg ctx c1 hr1
      by_cases h2 : cfg.rxWindow = 0 ∨ cfg.rxWindow = 2
      · rw [if_pos h2] at h
        obtain ⟨f2, hc2, ht2, hf2, hp2⟩ := setTXInfoForRX2_ok cfg c1 c h
        refine ⟨[f1], [f2], ?_, fun _ => ⟨f1, rfl, ht1, hp1⟩,
          fun hn => absurd h1 hn, fun _ => ⟨f2, rfl, ht2, hf2, hp2⟩,
          fun hn => absurd h2 hn⟩
        rw [hc2, hc1]
        simp
      · rw [if_neg h2] at h
        injection h with h
        subst h
        refine ⟨[f1], [], ?_, fun _ => ⟨f1, rfl, ht1, hp1⟩,
          fun hn => absurd h1 hn, fun hw => absurd hw h2, fun _ => rfl⟩
        rw [hc1]
        simp
  · rw [if_neg h1] at h
    simp only [Except.bind] at h
    by_cases h2 : cfg.rxWindow = 0 ∨ cfg.rxWindow = 2
    · rw [if_pos h2] at h
      obtain ⟨f2, hc2, ht2, hf2, hp2⟩ := setTXInfoForRX2_ok cfg ctx c h
      refine ⟨[], [f2], ?_, fun hw => absurd hw h1, fun _ => rfl,
        fun _ => ⟨f2, rfl, ht2, hf2, hp2⟩, fun hn => absurd h2 hn⟩
      rw [hc2]
      simp
    · rw [if_neg h2] at h
      injection h with h
      subst h
      exact ⟨[], [], by simp, fun hw => absurd hw h1, fun _ => rfl,
        fun hw => absurd hw h2, fun _ => rfl⟩

/-- Claim C7: a join-accept candidate list built by a successful setTXInfo
contains an RX1 frame exactly when the configured rxWindow is 0 or 1 and
an RX2 frame exactly when rxWindow is 0 or 2, RX1 ordered before RX2, the
RX1 candidate timed DELAY with JoinAcceptDelay1 and the RX2 candidate
timed DELAY with JoinAcceptDelay2 on the band-default RX2 frequency. -/
theorem setTXInfo_window_structure (cfg : Config) (ctx c : JoinContext)
    (h : setTXInfo cfg ctx = .ok c) (h0 : ctx.downlinkFrames = []) :
    ∃ fs1 fs2 : List DownlinkFrame,
      c.downlinkFrames = fs1 ++ fs2 ∧
      ((cfg.rxWindow = 0 ∨ cfg.rxWindow = 1) →
        ∃ f1, fs1 = [f1] ∧
          f1.txInfo.timing = .delay cfg.band.defaults.joinAcceptDelay1) ∧
      (¬(cfg.rxWindow = 0 ∨ cfg.rxWindow = 1) → fs1 = []) ∧
      ((cfg.rxWindow = 0 ∨ cfg.rxWindow = 2) →
        ∃ f2, fs2 = [f2] ∧
          f2.txInfo.timing = .delay cfg.band.defaults.joinAcceptDelay2 ∧
          f2.txInfo.frequency = cfg.band.defaults.rx2Frequency) ∧
      (¬(cfg.rxWindow = 0 ∨ cfg.rxWindow = 2) → fs2 = []) := by
  obtain ⟨fs1, fs2, hc, hw1, hn1, hw2, hn2⟩ := setTXInfo_ok_structure cfg ctx c h
  rw [h0] at hc
  refine ⟨fs1, fs2, by simpa using hc, fun hw => ?_, hn1, fun hw => ?_, hn2⟩
  · obtain ⟨f1, hfs, ht, _⟩ := hw1 hw
    exact ⟨f1, hfs, ht⟩
  · obtain ⟨f2, hfs, ht, hf, _⟩ := hw2 hw
    exact ⟨f2, hfs, ht, hf⟩

/-- a concrete band plan for the concrete-input theorems (EU868-like
defaults; the RX1 mappings are identities and the band-default downlink
TX power is 14 dBm everywhere). -/
def stubBand : Band where
  getRX1DataRateIndex := fun dr _ => .ok dr
  getDataRate := fun dr => .ok dr
  getRX1FrequencyForUplinkFrequency := fun f => .ok f
  getDownlinkTXPower := fun _ => 14
  defaults := ⟨869525000, 0, 5, 6⟩

/-- concrete configuration for the C7 witness: both receive windows. -/
def c7cfg : Config where
  rxWindow := 0
  downlinkTXPower := -1
  band := stubBand
  randUint16 := .ok 4660
  ctxID := some [1, 2, 3, 4, 5, 6, 7, 8, 9, 10, 11, 12, 13, 14, 15, 16]
  marshalPHY := .ok [32, 1, 2, 3]
  sendOK := .ok ()
  saveOK := .ok ()

/-- concrete pipeline state for the C7 witness (one receiving gateway). -/
def c7ctx : JoinContext where
  rxPacket :=
    { dr := 2
      txInfo := { frequency := 868100000 }
      rxInfoSet := [{ gatewayID := [1, 1, 1, 1, 1, 1, 1, 1], rssi := -60, loraSnr := 7 }] }
  deviceGatewayRXInfo := [{ gatewayID := [1, 1, 1, 1, 1, 1, 1, 1], rssi := -60, loRaSNR := 7 }]

/-- the state setTXInfo produces on the C7 witness input. -/
def c7post : JoinContext := ((setTXInfo c7cfg c7ctx).toOption).getD {}

/-- Witness for C7: with rxWindow = 0, the concrete run appends the RX1
candidate and then the RX2 candidate. -/
theorem setTXInfo_window_structure_witness :
    ∃ fs1 fs2 : List DownlinkFrame,
      c7post.downlinkFrames = fs1 ++ fs2 ∧
      ((c7cfg.rxWindow = 0 ∨ c7cfg.rxWindow = 1) →
        ∃ f1, fs1 = [f1] ∧
          f1.txInfo.timing = .delay c7cfg.band.defaults.joinAcceptDelay1) ∧
      (¬(c7cfg.rxWindow = 0 ∨ c7cfg.rxWindow = 1) → fs1 = []) ∧
      ((c7cfg.rxWindow = 0 ∨ c7cfg.rxWindow = 2) →
        ∃ f2, fs2 = [f2] ∧
          f2.txInfo.timing = .delay c7cfg.band.defaults.joinAcceptDelay2 ∧
          f2.txInfo.frequency = c7cfg.band.defaults.rx2Frequency) ∧
      (¬(c7cfg.rxWindow = 0 ∨ c7cfg.rxWindow = 2) → fs2 = []) :=
  setTXInfo_window_structure c7cfg c7ctx c7post rfl rfl

/-- Claim C8 amended: every candidate built by a successful setTXInfo
carries TX power equal to the configured DownlinkTXPower whenever that
value is not -1, and equal to the band plan's default downlink TX power
at the candidate's frequency exactly when it is -1 (the code tests
`!= -1`, not `>= 0`). -/
theorem txPower_selection (cfg : Config) (ctx c : JoinContext)
    (h : setTXInfo cfg ctx = .ok c) (h0 : ctx.downlinkFrames = [])
    (f : DownlinkFrame) (hf : f ∈ c.downlinkFrames) :
    (cfg.downlinkTXPower ≠ -1 → f.txInfo.power = cfg.downlinkTXPower) ∧
    (cfg.downlinkTXPower = -1 →
      f.txInfo.power = cfg.band.getDownlinkTXPower f.txInfo.frequency) := by
  obtain ⟨fs1, fs2, hc, hw1, hn1, hw2, hn2⟩ := setTXInfo_ok_structure cfg ctx c h
  rw [h0] at hc
  simp only [List.nil_append] at hc
  rw [hc] at hf
  have hpow : f.txInfo.power = (if cfg.downlinkTXPower ≠ -1 then cfg.downlinkTXPower
      else cfg.band.getDownlinkTXPower f.txInfo.frequency) := by
    rcases List.mem_append.mp hf with hf1 | hf2
    · by_cases h1 : cfg.rxWindow = 0 ∨ cfg.rxWindow = 1
      · obtain ⟨f1, hfs, _, hp⟩ := hw1 h1
        rw [hfs] at hf1
        have hff : f = f1 := by simpa using hf1
        rw [hff]
        exact hp
      · rw [hn1 h1] at hf1
        simp at hf1
    · by_cases h2 : cfg.rxWindow = 0 ∨ cfg.rxWindow = 2
      · obtain ⟨f2, hfs, _, _, hp⟩ := hw2 h2
        rw [hfs] at hf2
        have hff : f = f2 := by simpa using hf2
        rw [hff]
        exact hp
      · rw [hn2 h2] at hf2
        simp at hf2
  constructor
  · intro hne
    rw [hpow, if_pos hne]
  · intro he
    rw [hpow, if_neg (by simp [he])]

/-- concrete configuration for the C8 witness: explicit 20 dBm. -/
def c8wcfg : Config where
  rxWindow := 0
  downlinkTXPower := 20
  band := stubBand
  randUint16 := .ok 1
  ctxID := none
  marshalPHY := .ok []
  sendOK := .ok ()
  saveOK := .ok ()

/-- concrete pipeline state for the C8 witness. -/
def c8wctx : JoinContext where
  rxPacket := { dr := 1, txInfo := { frequency := 868300000 }, rxInfoSet := [{}] }
  deviceGatewayRXInfo := [{}]

/-- the state setTXInfo produces on the C8 witness input. -/
def c8wpost : JoinContext := ((setTXInfo c8wcfg c8wctx).toOption).getD {}

/-- the RX1 candidate built on the C8 witness input. -/
def c8wframe : DownlinkFrame := c8wpost.downlinkFrames.headD {}

/-- Witness for C8 amended: with configured power 20 the candidate
carries 20. -/
theorem txPower_selection_witness :
    (c8wcfg.downlinkTXPower ≠ -1 → c8wframe.txInfo.power = c8wcfg.downlinkTXPower) ∧
    (c8wcfg.downlinkTXPower = -1 →
      c8wframe.txInfo.power = c8wcfg.band.getDownlinkTXPower c8wframe.txInfo.frequency) :=
  txPower_selection c8wcfg c8wctx c8wpost rfl rfl c8wframe (by decide)

/-- concrete configuration for the C8 counterexample: DownlinkTXPower -2,
negative but different from the -1 sentinel. -/
def c8cfg : Config where
  rxWindow := 1
  downlinkTXPower := -2
  band := stubBand
  randUint16 := .ok 1
  ctxID := none
  marshalPHY := .ok []
  sendOK := .ok ()
  saveOK := .ok ()

/-- concrete pipeline state for the C8 counterexample. -/
def c8ctx : JoinContext where
  rxPacket := { dr := 1, txInfo := { frequency := 868100000 }, rxInfoSet := [{}] }
  deviceGatewayRXInfo := [{}]

/-- the state setTXInfoForRX1 produces on the C8 counterexample input. -/
def c8post : JoinContext := ((setTXInfoForRX1 c8cfg c8ctx).toOption).getD {}

/-- the candidate built on the C8 counterexample input. -/
def c8frame : DownlinkFrame := c8post.downlinkFrames.headD {}

/-- Claim C8 counterexample: with configured DownlinkTXPower -2 (which is
negative, so the claim demands the band default 14), the candidate built
by setTXInfoForRX1 carries power -2: the code only falls back to the band
default on the exact sentinel -1. -/
theorem downlinkTXPower_negative_counterexample :
    c8cfg.downlinkTXPower = -2 ∧
    ¬ (0 : Int) ≤ c8cfg.downlinkTXPower ∧
    setTXInfoForRX1 c8cfg c8ctx = .ok c8post ∧
    c8frame.txInfo.power = -2 ∧
    c8cfg.band.getDownlinkTXPower c8frame.txInfo.frequency = 14 ∧
    c8frame.txInfo.power ≠ c8cfg.band.getDownlinkTXPower c8frame.txInfo.frequency :=
  ⟨rfl, by decide, rfl, rfl, rfl, by decide⟩

/-- Claim C6 amended: setToken draws ONE random 16-bit token per
join-accept and assigns that same token to every candidate frame; every
candidate's downlink-id is copied from the uplink context id. -/
theorem setToken_same_token_all_frames (cfg : Config) (ctx c : JoinContext)
    (tok : Nat) (id : List Nat)
    (hr : cfg.randUint16 = .ok tok) (hid : cfg.ctxID = some id)
    (h : setToken cfg ctx = .ok c) :
    ∀ f ∈ c.downlinkFrames, f.token = tok ∧ f.downlinkId = id := by
  unfold setToken at h
  rw [hr] at h
  dsimp only at h
  injection h with h
  subst h
  intro f hf
  simp only [List.mem_map] at hf
  obtain ⟨g, hg, rfl⟩ := hf
  have hdid : downlinkID cfg = id := by
    unfold downlinkID
    rw [hid]
  exact ⟨rfl, hdid⟩

/-- concrete configuration for the C6 witness. -/
def c6wcfg : Config where
  rxWindow := 0
  downlinkTXPower := -1
  band := stubBand
  randUint16 := .ok 4660
  ctxID := some [9, 9, 9, 9, 9, 9, 9, 9, 9, 9, 9, 9, 9, 9, 9, 9]
  marshalPHY := .ok []
  sendOK := .ok ()
  saveOK := .ok ()

/-- concrete two-candidate state for the C6 witness. -/
def c6wctx : JoinContext where
  downlinkFrames := [{}, { txInfo := { frequency := 1 } }]

/-- the state setToken produces on the C6 witness input. -/
def c6wpost : JoinContext := ((setToken c6wcfg c6wctx).toOption).getD {}

/-- the first candidate after setToken on the C6 witness input. -/
def c6wframe : DownlinkFrame := c6wpost.downlinkFrames.headD {}

/-- Witness for C6 amended: the first of the two concrete candidates
carries the drawn token 4660 and the context id. -/
theorem setToken_same_token_all_frames_witness :
    c6wframe.token = 4660 ∧
    c6wframe.downlinkId = [9, 9, 9, 9, 9, 9, 9, 9, 9, 9, 9, 9, 9, 9, 9, 9] :=
  setToken_same_token_all_frames c6wcfg c6wctx c6wpost 4660
    [9, 9, 9, 9, 9, 9, 9, 9, 9, 9, 9, 9, 9, 9, 9, 9] rfl rfl rfl c6wframe (by decide)

/-- concrete uuid for the C6 counterexample. -/
def c6uuid : List Nat := [1, 2, 3, 4, 5, 6, 7, 8, 9, 10, 11, 12, 13, 14, 15, 16]

/-- concrete configuration for the C6 counterexample: one random draw,
value 4660. -/
def c6cfg : Config where
  rxWindow := 0
  downlinkTXPower := -1
  band := stubBand
  randUint16 := .ok 4660
  ctxID := some c6uuid
  marshalPHY := .ok []
  sendOK := .ok ()
  saveOK := .ok ()

/-- concrete two-candidate (RX1-then-RX2-shaped) state for the C6
counterexample. -/
def c6ctx : JoinContext where
  downlinkFrames :=
    [{ txInfo := { frequency := 868100000 } }, { txInfo := { frequency := 869525000 } }]

/-- the state setToken produces on the C6 counterexample input. -/
def c6post : JoinContext := ((setToken c6cfg c6ctx).toOption).getD {}

/-- Claim C6 counterexample: a two-candidate list passed through setToken
ends with BOTH candidates carrying the very same token 4660 — the single
value produced by the one rand.Read call — so the RX1 and RX2 candidates
never carry independently drawn tokens. -/
theorem setToken_single_draw_counterexample :
    setToken c6cfg c6ctx = .ok c6post ∧
    c6post.downlinkFrames.map (fun f => f.token) = [4660, 4660] ∧
    (c6post.downlinkFrames.headD {}).token = (c6post.downlinkFrames.getLastD {}).token :=
  ⟨rfl, rfl, rfl⟩

/-- Claim C10: a join Handle call on an RXPacket with an empty RXInfoSet
fails in the FIRST pipeline task with "DeviceGatewayRXInfo is empty!", so
no downlink frame is built and nothing reaches the gateway backend (the
later tasks, including sendJoinAcceptResponse, never run in the Except
chain); conversely a non-empty RXInfoSet makes setDeviceGatewayRXInfo
succeed with a non-empty DeviceGatewayRXInfo, so the index-0 access in
setTXInfoForRX1 and setTXInfoForRX2 is in bounds. -/
theorem handle_empty_rxInfoSet_safe (cfg : Config) (rx : RXPacket) :
    (rx.rxInfoSet = [] → Handle cfg rx = .error "DeviceGatewayRXInfo is empty!") ∧
    (rx.rxInfoSet ≠ [] →
      ∃ c, setDeviceGatewayRXInfo { rxPacket := rx } = .ok c ∧
        c.deviceGatewayRXInfo.head?.isSome = true) := by
  constructor
  · intro h
    unfold Handle setDeviceGatewayRXInfo
    simp [h, Except.bind]
  · intro h
    refine ⟨{ rxPacket := rx, deviceGatewayRXInfo := rx.rxInfoSet.map mkDeviceGatewayRXInfo }, ?_, ?_⟩
    · unfold setDeviceGatewayRXInfo
      rw [if_neg (by simp [h])]
      rfl
    · cases hrx : rx.rxInfoSet with
      | nil => exact absurd hrx h
      | cons a t => simp [hrx]

/-- concrete configuration for the C10 witness. -/
def c10cfg : Config where
  rxWindow := 2
  downlinkTXPower := -1
  band := stubBand
  randUint16 := .ok 7
  ctxID := none
  marshalPHY := .ok [1]
  sendOK := .ok ()
  saveOK := .ok ()

/-- an RXPacket with no receiving gateway. -/
def c10rxEmpty : RXPacket := {}

/-- an RXPacket with one receiving gateway. -/
def c10rxOne : RXPacket := { rxInfoSet := [{ gatewayID := [2, 2, 2, 2, 2, 2, 2, 2] }] }

/-- Witness for C10: the empty RX-info set aborts the concrete Handle run
and the one-gateway set yields an in-bounds DeviceGatewayRXInfo. -/
theorem handle_empty_rxInfoSet_safe_witness :
    Handle c10cfg c10rxEmpty = .error "DeviceGatewayRXInfo is empty!" ∧
    ∃ c, setDeviceGatewayRXInfo { rxPacket := c10rxOne } = .ok c ∧
      c.deviceGatewayRXInfo.head?.isSome = true :=
  ⟨(handle_empty_rxInfoSet_safe c10cfg c10rxEmpty).1 rfl,
   (handle_empty_rxInfoSet_safe c10cfg c10rxOne).2 (by decide)⟩

end join

namespace api

/-- the gRPC status codes appearing in internal/api/errors.go. -/
inductive Code where
  | invalidArgument
  | failedPrecondition
  | internalError
  | alreadyExists
  | notFound
  | unknown
deriving DecidableEq, Repr

/-- the error causes of internal/api/errors.go: the twelve sentinel
errors registered in the errToCode map (qualified by their package), and
`other` for any error whose cause is outside the taxonomy.  The sentinel
error message strings live outside src/ and are not modelled. -/
inductive ErrCause where
  | dataErrFPortMustNotBeZero
  | dataErrFPortMustBeZero
  | dataErrNoLastRXInfoSet
  | dataErrInvalidDataRate
  | dataErrMaxPayloadSizeExceeded
  | proprietaryErrInvalidDataRate
  | multicastErrInvalidFCnt
  | storageErrAlreadyExists
  | storageErrDoesNotExistOrFCntOrMICInvalid
  | storageErrDoesNotExist
  | storageErrInvalidName
  | storageErrInvalidAggregationInterval
  | storageErrInvalidFPort
  | other (msg : String)
deriving DecidableEq, Repr

/-- the errToCode map: `none` models absence of the cause from the Go
map. -/
def errToCode : ErrCause → Option Code
  | .dataErrFPortMustNotBeZero => some .invalidArgument
  | .dataErrFPortMustBeZero => some .invalidArgument
  | .dataErrNoLastRXInfoSet => some .failedPrecondition
  | .dataErrInvalidDataRate => some .internalError
  | .dataErrMaxPayloadSizeExceeded => some .invalidArgument
  | .proprietaryErrInvalidDataRate => some .internalError
  | .multicastErrInvalidFCnt => some .invalidArgument
  | .storageErrAlreadyExists => some .alreadyExists
  | .storageErrDoesNotExistOrFCntOrMICInvalid => some .notFound
  | .storageErrDoesNotExist => some .notFound
  | .storageErrInvalidName => some .invalidArgument
  | .storageErrInvalidAggregationInterval => some .invalidArgument
  | .storageErrInvalidFPort => some .invalidArgument
  | .other _ => none

/-- errToRPCError: look the cause up in errToCode and fall back to
Unknown when it is absent (the grpc.Errorf message, cause.Error(), is not
modelled). -/
def errToRPCError (e : ErrCause) : Code :=
  match errToCode e with
  | some c => c
  | none => .unknown

/-- the code assigned to each cause by the claim's taxonomy, written from
the spec's words for comparison with the implementation: InvalidArgument
for the bad-FPort, invalid-FCnt, oversize-payload, invalid-name and
invalid-aggregation-interval errors; FailedPrecondition for
no-last-RX-info; Internal for the unknown-data-rate errors;
AlreadyExists; NotFound for missing-session and FCnt-or-MIC-mismatch;
Unknown for everything else. -/
def claimTaxonomyCode : ErrCause → Code
  | .dataErrFPortMustNotBeZero => .invalidArgument
  | .dataErrFPortMustBeZero => .invalidArgument
  | .storageErrInvalidFPort => .invalidArgument
  | .multicastErrInvalidFCnt => .invalidArgument
  | .dataErrMaxPayloadSizeExceeded => .invalidArgument
  | .storageErrInvalidName => .invalidArgument
  | .storageErrInvalidAggregationInterval => .invalidArgument
  | .dataErrNoLastRXInfoSet => .failedPrecondition
  | .dataErrInvalidDataRate => .internalError
  | .proprietaryErrInvalidDataRate => .internalError
  | .storageErrAlreadyExists => .alreadyExists
  | .storageErrDoesNotExist => .notFound
  | .storageErrDoesNotExistOrFCntOrMICInvalid => .notFound
  | .other _ => .unknown

/-- Claim C9: for every error cause, errToRPCError returns exactly the
gRPC code the spec's taxonomy assigns: InvalidArgument for the bad-FPort,
invalid-FCnt, oversize-payload, invalid-name and
invalid-aggregation-interval errors, FailedPrecondition for
no-last-RX-info, Internal for the unknown-data-rate errors, AlreadyExists
for already-exists, NotFound for the missing-session and
FCnt-or-MIC-mismatch errors, and Unknown outside the taxonomy. -/
theorem errToRPCError_matches_taxonomy (e : ErrCause) :
    errToRPCError e = claimTaxonomyCode e := by
  cases e <;> rfl

end api

end LpwanServer
